import Mathlib

/-!
Shallow embedding of the IXItools line-normalization and element-classification
core (`Data.py`, `Elementen.py`, `Datahandler._collect_counts`).

Strings are modelled by Lean `String`; the cell contents handled by the
program are plain ASCII Latin text, so Python's `str.lower` / `str.islower`
are modelled by the ASCII `Char.toLower` / `Char.isLower`.  A document is the
ordered list of its text lines (`Data.py` writes one line per spreadsheet
row, and every `count_*` function in `Elementen.py` reads those rows back as
the cell values it scans).  Fallible steps (`next(...)` over an exhausted
generator in `Data.py`) are modelled with `Option`.
-/

namespace IXI

/-- ASCII model of Python `str.lower()` applied to a whole string. -/
def lowerStr (s : String) : String :=
  String.mk (s.data.map Char.toLower)

/-- Predicate `containsSub hay needle` models Python's substring test
`needle in hay` on the character lists of the two strings. -/
def containsSub : List Char → List Char → Bool
  | [], needle => needle.isEmpty
  | hay@(_ :: rest), needle => needle.isPrefixOf hay || containsSub rest needle

/-- Python `needle in hay` for strings (case-sensitive substring containment). -/
def containsStr (hay needle : String) : Bool :=
  containsSub hay.data needle.data

/-- Python `line and line[0].islower()` from `Data.py` line 18: the raw line
is nonempty and its first character is a lowercase letter. -/
def lineStartsLower (s : String) : Bool :=
  match s.data with
  | [] => false
  | c :: _ => c.isLower

/-- One step of the continuation-merging loop of `Data.py` lines 17-21.
The accumulator holds the logical lines built so far in reverse order, so
its head is the current logical line (`new_lines[-1]`). -/
def mergeStep (acc : List String) (line : String) : List String :=
  match acc with
  | [] => [line]
  | cur :: rest =>
    if lineStartsLower line then (cur ++ " " ++ line) :: rest
    else line :: cur :: rest

/-- Function `new_lines` of `Data.py` lines 16-21: seed with the first raw
line, then either append each lowercase-leading raw line to the current
logical line (with one separating space) or start a new logical line. -/
def new_lines : List String → List String
  | [] => []
  | first :: rest => (rest.foldl mergeStep [first]).reverse

/-- The noise filter of `Data.py` line 24 (case-sensitive substring tests). -/
def keepLine (l : String) : Bool :=
  !containsStr l "Netto afmetingen :" && !containsStr l "Line n"

/-- Function `filtered_lines` of `Data.py` line 24. -/
def filtered_lines (lines : List String) : List String :=
  (new_lines lines).filter keepLine

/-- The terminal marker ("total price" label) of `Data.py` line 27. -/
def totalPriceLabel : String :=
  "Totale prijs van uw ingerichte keuken incl. BTW:"

/-- Does a line contain the terminal marker? (`Data.py` line 27). -/
def isTotalLine (l : String) : Bool :=
  containsStr l totalPriceLabel

/-- Model of `next(i for i, line in enumerate(ls) if p line)` of `Data.py`
line 27: index of the first line satisfying `p`, `none` when the generator
is exhausted (Python raises `StopIteration` there, aborting the run). -/
def findMarkerIdx (p : String → Bool) : List String → Option Nat
  | [] => none
  | l :: ls => if p l then some 0 else (findMarkerIdx p ls).map (· + 1)

/-- Function `total_price_index` of `Data.py` line 27, made total with
`Option`. -/
def total_price_index (ls : List String) : Option Nat :=
  findMarkerIdx isTotalLine ls

/-- The whole normalization pipeline of `Data.py`: merge continuations,
drop noise lines, truncate at the first total-price line (inclusive,
`filtered_lines[:total_price_index + 1]`, line 32).  `none` models the
fatal aborts (empty input, or `StopIteration` from a missing marker). -/
def normalize (lines : List String) : Option (List String) :=
  if lines.isEmpty then none
  else
    match total_price_index (filtered_lines lines) with
    | none => none
    | some i => some ((filtered_lines lines).take (i + 1))

/-!
`Elementen.py`.  Every `count_*` function scans all cells of `Data.xlsx`
(the normalized lines) and, for each cell and each target word, increments
that word's counter when `word.lower() in cell_value.lower()`; the raw
total is the sum of the per-word counters.  The iteration order over
(sheet, row, cell, word) only permutes the additions, so the raw total is
the sum over lines of the number of matching words per line.
-/

/-- Number of target words of `words` contained (case-insensitively) in the
line `l`: the contribution of one cell to the per-word counters of the
shared scanning loop of `Elementen.py` (e.g. lines 49-56). -/
def lineTally (words : List String) (l : String) : Nat :=
  (words.filter (fun w => containsStr (lowerStr l) (lowerStr w))).length

/-- Model of `sum(word_counts.values())`: the raw tally of the shared
scanning loop of `Elementen.py` over all cells and target words. -/
def rawTally (lines words : List String) : Nat :=
  (lines.map (lineTally words)).sum

/-- The exclusion test of `Elementen.py` line 23: the cell is skipped for
`count_onderkasten_kolomkasten` when it contains either excluded phrase
(case-insensitively). -/
def vetoed_onderkasten (l : String) : Bool :=
  containsStr (lowerStr l) "wand-hoekkast" ||
    containsStr (lowerStr l) "kleinere dieptes bij onderkast"

/-- Function `count_onderkasten_kolomkasten` (`Elementen.py` lines 6-32):
the raw tally over the non-vetoed cells, no post-processing. -/
def count_onderkasten_kolomkasten (lines words : List String) : Nat :=
  rawTally (lines.filter (fun l => !vetoed_onderkasten l)) words

def target_words_onderkasten_kolomkasten : List String :=
  ["Onderkast", "Hoekkast", "Ladekast", "Kookplaatkast", "Spoelkast",
   "Ombouwkast", "Servies- / Voorraadkast"]

/-- Function `count_Hangkasten` (`Elementen.py` lines 37-62): plain raw
tally. -/
def count_Hangkasten (lines words : List String) : Nat :=
  rawTally lines words

def target_words_Hangkasten : List String := ["Wandkast", "Wand-hoekkast"]

/-- Function `count_plinten` (`Elementen.py` lines 66-98): raw tally,
halved and floored (`math.floor(c / 2)` is `c / 2` on `Nat`), clamped up
to 1 when the raw tally is positive but the halved value is below 1. -/
def count_plinten (lines words : List String) : Nat :=
  if 0 < rawTally lines words ∧ rawTally lines words / 2 < 1 then 1
  else rawTally lines words / 2

def target_words_plinten : List String := ["SB15", "SB7", "SB20"]

/-- Function `count_Kroonlijsten` (`Elementen.py` lines 103-128): plain raw
tally. -/
def count_Kroonlijsten (lines words : List String) : Nat :=
  rawTally lines words

def target_words_Kroonlijsten : List String := ["Kroonlijst"]

/-- Function `count_Lichtlijsten` (`Elementen.py` lines 132-157): plain raw
tally. -/
def count_Lichtlijsten (lines words : List String) : Nat :=
  rawTally lines words

def target_words_Lichtlijsten : List String := ["Lichtlijsten"]

/-- Function `count_Werkbladen` (`Elementen.py` lines 161-186): plain raw
tally. -/
def count_Werkbladen (lines words : List String) : Nat :=
  rawTally lines words

def target_words_Werkbladen : List String := ["Werkblad APD", "Werkblad APN"]

/-- Function `count_Spoelbak_kraan` (`Elementen.py` lines 190-216): raw
tally, but any positive tally is replaced by the fixed bundle size 3. -/
def count_Spoelbak_kraan (lines words : List String) : Nat :=
  if 1 ≤ rawTally lines words then 3 else rawTally lines words

def target_words_Spoelbak_kraan : List String := ["Spoelkast", "kraan", "SPOELBAK"]

/-- Function `count_Kookplaat` (`Elementen.py` lines 220-244): raw tally
doubled. -/
def count_Kookplaat (lines words : List String) : Nat :=
  rawTally lines words * 2

def target_words_Kookplaat : List String := ["Kookplaatkast", "kookplaat"]

/-- Function `count_Dampkap` (`Elementen.py` lines 248-274): raw tally
capped at 1. -/
def count_Dampkap (lines words : List String) : Nat :=
  if 1 ≤ rawTally lines words then 1 else rawTally lines words

def target_words_Dampkap : List String :=
  ["vlakscherm", "Wandschouwkap", "Wanddampkap", "dampkap"]

/-- Function `count_Oven` (`Elementen.py` lines 278-304): raw tally capped
at 1. -/
def count_Oven (lines words : List String) : Nat :=
  if 1 ≤ rawTally lines words then 1 else rawTally lines words

def target_words_Oven : List String := ["oven"]

/-- Function `count_Microgolfoven` (`Elementen.py` lines 308-334): raw
tally capped at 1. -/
def count_Microgolfoven (lines words : List String) : Nat :=
  if 1 ≤ rawTally lines words then 1 else rawTally lines words

def target_words_Microgolfoven : List String := ["magnetron"]

/-- Function `count_koelkast` (`Elementen.py` lines 338-362): raw tally
doubled. -/
def count_koelkast (lines words : List String) : Nat :=
  rawTally lines words * 2

def target_words_koelkast : List String :=
  ["Ombouwkast koel / vries", "Ombouwkast koelautomaat", "GD1"]

/-- Function `count_Vaatwasser` (`Elementen.py` lines 366-390): plain raw
tally. -/
def count_Vaatwasser (lines words : List String) : Nat :=
  rawTally lines words

def target_words_Vaatwasser : List String :=
  ["Deurfront voor", "Deurfront in", "Doorlopend deurfront"]

/-- Function `count_Passtukken` (`Elementen.py` lines 394-418): plain raw
tally. -/
def count_Passtukken (lines words : List String) : Nat :=
  rawTally lines words

def target_words_Passtukken : List String := ["passtuk"]

/-- The per-word weight of `count_Deur_vaatwasser` (`Elementen.py` lines
469-472): 2 for the phrase whose lowercasing is `"deurfront in"`, else 1. -/
def deurWeight (w : String) : Nat :=
  if lowerStr w = "deurfront in" then 2 else 1

/-- Weighted contribution of one cell to `count_Deur_vaatwasser`. -/
def deurLineTally (words : List String) (l : String) : Nat :=
  (((words.filter (fun w => containsStr (lowerStr l) (lowerStr w))).map
    deurWeight)).sum

/-- Function `count_Deur_vaatwasser` (`Elementen.py` lines 450-478): like
the plain raw tally but each matching (cell, word) pair adds
`deurWeight word`. -/
def count_Deur_vaatwasser (lines words : List String) : Nat :=
  (lines.map (deurLineTally words)).sum

def target_words_Deur_vaatwasser : List String :=
  ["Deurfront voor", "Deurfront in", "Doorlopend deurfront"]

/-- ASCII model of the regex word class `\w` (`[A-Za-z0-9_]`). -/
def isWordChar (c : Char) : Bool :=
  c.isAlphanum || c == '_'

/-- Boundary test on the character preceding a candidate match position:
`\b` holds there for a word-initial needle character exactly when there is
no previous character or it is not a word character. -/
def boundaryOk : Option Char → Bool
  | none => true
  | some c => !isWordChar c

/-- Test `matchTail hay needle`: the (already lowercased) needle occurs at
the start of `hay` (compared case-insensitively) and, for a needle ending
in a word character, the character right after the occurrence — if any —
is not a word character (the trailing `\b`). -/
def matchTail : List Char → List Char → Bool
  | hay, [] =>
    match hay with
    | [] => true
    | c :: _ => !isWordChar c
  | [], _ :: _ => false
  | c :: t, n :: ns => (Char.toLower c == n) && matchTail t ns

/-- Scan of all match positions: `prev` is the character just before the
current position (`none` at the start of the string). -/
def wwFrom (needle : List Char) : Option Char → List Char → Bool
  | prev, [] => boundaryOk prev && matchTail [] needle
  | prev, c :: t =>
    (boundaryOk prev && matchTail (c :: t) needle) || wwFrom needle (some c) t

/-- Model of `re.search(r"\b{}\b".format(re.escape(word)), cell,
re.IGNORECASE)` of `Elementen.py` lines 500-501, for target phrases that
start and end with word characters (as the configured `Achterwand` phrase
does): some occurrence of the phrase, compared case-insensitively, is
flanked on both sides by string ends or non-word characters. -/
def wholeWordMatch (hay needle : String) : Bool :=
  wwFrom (lowerStr needle).data none hay.data

/-- Function `count_Achterwand` (`Elementen.py` lines 482-510): whole-word
matching, and a matching word whose lowercasing is
`"achterwandbekledingen"` is skipped (`continue`) instead of counted. -/
def count_Achterwand (lines words : List String) : Nat :=
  (lines.map (fun l =>
    (words.filter (fun w =>
      wholeWordMatch l w && lowerStr w != "achterwandbekledingen")).length)).sum

def target_words_Achterwand : List String := ["Achterwandbekleding"]

/-- Function `count_Zij_steunwand` (`Elementen.py` lines 515-539): plain
raw tally. -/
def count_Zij_steunwand (lines words : List String) : Nat :=
  rawTally lines words

def target_words_Zij_steunwand : List String :=
  ["HWK10", "HWK16", "HWK25", "HWK50", "WA10", "WA16", "WA25", "WA50",
   "WW10", "WW16", "WW25", "WW50", "WR10", "WR16", "WR25", "WR50", "Steunvoet"]

/-- Function `count_Andere` (`Elementen.py` lines 543-569): any positive
raw tally is replaced by the fixed value 5. -/
def count_Andere (lines words : List String) : Nat :=
  if 1 ≤ rawTally lines words then 5 else rawTally lines words

def target_words_Andere : List String := ["LineN"]

/-- Function `count_Verlichting` (`Elementen.py` lines 573-597): plain raw
tally. -/
def count_Verlichting (lines words : List String) : Nat :=
  rawTally lines words

def target_words_Verlichting : List String := ["LNDERB"]

/-- Model of `Datahandler._collect_counts` (`Datahandler.py` lines 42-100):
the full configured catalog, one entry per `CategoryRule`, keyed by the
output cell of that category, each evaluated on the same normalized line
list (the rows of `Data.xlsx`, here passed as `lines` in place of
`Elementen.filename`). -/
def collectCounts (lines : List String) : List (String × Nat) :=
  [("E15", count_onderkasten_kolomkasten lines target_words_onderkasten_kolomkasten),
   ("E16", count_Hangkasten lines target_words_Hangkasten),
   ("E17", count_plinten lines target_words_plinten),
   ("E18", count_Kroonlijsten lines target_words_Kroonlijsten),
   ("E19", count_Lichtlijsten lines target_words_Lichtlijsten),
   ("E20", count_Werkbladen lines target_words_Werkbladen),
   ("E21", count_Spoelbak_kraan lines target_words_Spoelbak_kraan),
   ("E22", count_Kookplaat lines target_words_Kookplaat),
   ("E23", count_Dampkap lines target_words_Dampkap),
   ("E24", count_Oven lines target_words_Oven),
   ("E25", count_Microgolfoven lines target_words_Microgolfoven),
   ("E26", count_koelkast lines target_words_koelkast),
   ("E27", count_Vaatwasser lines target_words_Vaatwasser),
   ("E30", count_Passtukken lines target_words_Passtukken),
   ("E33", count_Deur_vaatwasser lines target_words_Deur_vaatwasser),
   ("E34", count_Achterwand lines target_words_Achterwand),
   ("E35", count_Zij_steunwand lines target_words_Zij_steunwand),
   ("E37", count_Andere lines target_words_Andere),
   ("E38", count_Verlichting lines target_words_Verlichting)]

/-- The two pipeline stages composed: normalize the raw document, then
evaluate the whole catalog on the normalized lines; a document failing
normalization yields no count mapping at all. -/
def runPipeline (lines : List String) : Option (List (String × Nat)) :=
  (normalize lines).map collectCounts

/-!
Theorems.
-/

/-- If no line of `ls` satisfies `p`, the first-index search is exhausted. -/
theorem findMarkerIdx_none (p : String → Bool) (ls : List String)
    (h : ∀ l ∈ ls, p l = false) : findMarkerIdx p ls = none := by
  induction ls with
  | nil => rfl
  | cons a t ih =>
    have ha := h a (List.mem_cons_self a t)
    simp [findMarkerIdx, ha]
    exact ih fun l hl => h l (List.mem_cons_of_mem a hl)

/-- If the first index satisfying `p` is `i`, then the prefix of length
`i + 1` decomposes as earlier non-matching lines followed by one matching
line. -/
theorem findMarkerIdx_take (p : String → Bool) :
    ∀ (ls : List String) (i : Nat), findMarkerIdx p ls = some i →
      ∃ front lastL, ls.take (i + 1) = front ++ [lastL] ∧ p lastL = true ∧
        ∀ x ∈ front, p x = false := by
  intro ls
  induction ls with
  | nil => intro i h; simp [findMarkerIdx] at h
  | cons a t ih =>
    intro i h
    by_cases ha : p a
    · have hi : i = 0 := by simp [findMarkerIdx, ha] at h; omega
      subst hi
      exact ⟨[], a, by simp, ha, by simp⟩
    · have hmap : (findMarkerIdx p t).map (· + 1) = some i := by
        simpa [findMarkerIdx, ha] using h
      cases hfind : findMarkerIdx p t with
      | none => rw [hfind] at hmap; simp at hmap
      | some j =>
        rw [hfind] at hmap
        simp at hmap
        obtain ⟨front, lastL, htake, hp, hfront⟩ := ih j hfind
        refine ⟨a :: front, lastL, ?_, hp, ?_⟩
        · rw [← hmap]
          simpa [List.take] using htake
        · intro x hx
          rcases List.mem_cons.mp hx with hxa | hxf
          · subst hxa; simpa using ha
          · exact hfront x hxf

/-- C1 counterexample: the configured catalog of `_collect_counts` has 19
category rules, not 18 — already on the empty document the output mapping
has 19 entries. -/
theorem collectCounts_not_eighteen :
    (collectCounts []).length = 19 ∧ ¬((collectCounts []).length = 18) := by
  decide

/-- C1 (amended): for every input document, the output of
`_collect_counts` has exactly one entry per configured category rule — 19
entries, keyed E15-E27, E30, E33-E35, E37, E38 — each value a non-negative
integer; no configured category is omitted, including categories whose
count is zero. -/
theorem collectCounts_complete (lines : List String) :
    (collectCounts lines).map Prod.fst =
      ["E15", "E16", "E17", "E18", "E19", "E20", "E21", "E22", "E23", "E24",
       "E25", "E26", "E27", "E30", "E33", "E34", "E35", "E37", "E38"] ∧
    (collectCounts lines).length = 19 ∧
    ∀ p ∈ collectCounts lines, 0 ≤ p.2 := by
  refine ⟨rfl, rfl, ?_⟩
  intro p _
  exact Nat.zero_le _

/-- C2: normalizing a line sequence none of whose merged logical lines
contains the total-price label is fatal: `Data.py`'s `next(...)` raises
`StopIteration`, modelled as `none`, so the run aborts before
classification and the caller never receives a (partial or zero-filled)
count mapping. -/
theorem normalize_missing_marker (lines : List String)
    (h : ∀ l ∈ new_lines lines, isTotalLine l = false) :
    normalize lines = none ∧ runPipeline lines = none := by
  have hfl : ∀ l ∈ filtered_lines lines, isTotalLine l = false := by
    intro l hl
    exact h l (List.mem_of_mem_filter hl)
  have hidx : total_price_index (filtered_lines lines) = none :=
    findMarkerIdx_none _ _ hfl
  have hnorm : normalize lines = none := by
    unfold normalize
    by_cases he : lines.isEmpty <;> simp [he, hidx]
  exact ⟨hnorm, by simp [runPipeline, hnorm]⟩

/-- Witness for C2 on a concrete two-line document with no total-price
line. -/
theorem normalize_missing_marker_witness :
    normalize ["Kast A", "600 x 400"] = none ∧
      runPipeline ["Kast A", "600 x 400"] = none :=
  normalize_missing_marker ["Kast A", "600 x 400"] (by decide)

/-- C3: a successfully normalized output contains no line with a forbidden
noise substring (case-sensitive), decomposes as marker-free lines followed
by one final line containing the total-price label (so it ends exactly at
the first remaining marker line and every later line is dropped), and is a
sublist of the merged logical lines (relative order of retained lines is
preserved). -/
theorem normalize_guarantees (lines out : List String)
    (h : normalize lines = some out) :
    (∀ l ∈ out, containsStr l "Netto afmetingen :" = false ∧
        containsStr l "Line n" = false) ∧
    (∃ front lastL, out = front ++ [lastL] ∧ isTotalLine lastL = true ∧
        ∀ l ∈ front, isTotalLine l = false) ∧
    List.Sublist out (new_lines lines) := by
  unfold normalize at h
  by_cases he : lines.isEmpty
  · simp [he] at h
  · rw [if_neg he] at h
    cases hidx : total_price_index (filtered_lines lines) with
    | none => rw [hidx] at h; simp at h
    | some i =>
      rw [hidx] at h
      have hout : out = (filtered_lines lines).take (i + 1) := by
        simpa using h.symm
      refine ⟨?_, ?_, ?_⟩
      · intro l hl
        have hfl : l ∈ filtered_lines lines :=
          List.take_subset _ _ (hout ▸ hl)
        have hk : keepLine l = true := (List.mem_filter.mp hfl).2
        simp only [keepLine, Bool.and_eq_true, Bool.not_eq_true'] at hk
        exact hk
      · obtain ⟨front, lastL, htake, hp, hfront⟩ :=
          findMarkerIdx_take isTotalLine (filtered_lines lines) i hidx
        exact ⟨front, lastL, by rw [hout, htake], hp, hfront⟩
      · rw [hout]
        exact List.Sublist.trans (List.take_sublist _ _)
          (List.filter_sublist (new_lines lines))

/-- Witness for C3 on a concrete document with a noise line and a trailing
junk line. -/
theorem normalize_guarantees_witness :
    (∀ l ∈ ["Kast A", "Totale prijs van uw ingerichte keuken incl. BTW: 1234"],
        containsStr l "Netto afmetingen :" = false ∧
        containsStr l "Line n" = false) ∧
    (∃ front lastL,
        ["Kast A", "Totale prijs van uw ingerichte keuken incl. BTW: 1234"] =
          front ++ [lastL] ∧ isTotalLine lastL = true ∧
        ∀ l ∈ front, isTotalLine l = false) ∧
    List.Sublist
      ["Kast A", "Totale prijs van uw ingerichte keuken incl. BTW: 1234"]
      (new_lines ["Kast A", "Netto afmetingen : 600",
        "Totale prijs van uw ingerichte keuken incl. BTW: 1234", "Junk"]) :=
  normalize_guarantees
    ["Kast A", "Netto afmetingen : 600",
      "Totale prijs van uw ingerichte keuken incl. BTW: 1234", "Junk"]
    ["Kast A", "Totale prijs van uw ingerichte keuken incl. BTW: 1234"]
    (by decide)

/-- C4: during merging, a raw line appended to a document whose merged form
ends in logical line `lastL` is glued onto `lastL` with one separating
space exactly when its first character exists and is a lowercase letter,
and starts a new logical line otherwise; in particular
`["Kast A", "bovenzijde", "Kast B"]` merges to
`["Kast A bovenzijde", "Kast B"]`. -/
theorem new_lines_snoc (lines front : List String) (lastL l : String)
    (h : new_lines lines = front ++ [lastL]) :
    (lineStartsLower l = true →
      new_lines (lines ++ [l]) = front ++ [lastL ++ " " ++ l]) ∧
    (lineStartsLower l = false →
      new_lines (lines ++ [l]) = front ++ [lastL, l]) ∧
    new_lines ["Kast A", "bovenzijde", "Kast B"] =
      ["Kast A bovenzijde", "Kast B"] := by
  cases lines with
  | nil => simp [new_lines] at h
  | cons a as =>
    have hacc : as.foldl mergeStep [a] = lastL :: front.reverse := by
      have hrev := congrArg List.reverse h
      simp only [new_lines, List.reverse_reverse, List.reverse_append,
        List.reverse_cons, List.reverse_nil, List.nil_append,
        List.singleton_append] at hrev
      exact hrev
    refine ⟨?_, ?_, by decide⟩ <;> intro hl <;>
      simp [new_lines, List.foldl_append, hacc, mergeStep, hl]

/-- Witness for C4: both branches at concrete inputs — a lowercase-leading
raw line merges, an uppercase-leading raw line starts a new logical line. -/
theorem new_lines_snoc_witness :
    new_lines (["Kast A"] ++ ["bovenzijde"]) = [] ++ ["Kast A" ++ " " ++ "bovenzijde"] ∧
    new_lines (["Kast A bovenzijde"] ++ ["Kast B"]) =
      [] ++ ["Kast A bovenzijde", "Kast B"] :=
  ⟨(new_lines_snoc ["Kast A"] [] "Kast A" "bovenzijde" (by decide)).1 (by decide),
   (new_lines_snoc ["Kast A bovenzijde"] [] "Kast A bovenzijde" "Kast B"
      (by decide)).2.1 (by decide)⟩

/-- C5: for the `onderkasten_kolomkasten` rule, a line containing one of
the excluded substrings (case-insensitive) contributes zero to the tally —
even when it also contains a target phrase — while a line without any
excluded substring contributes the number of target phrases it contains
case-insensitively. -/
theorem onderkasten_veto (lines words : List String) (l : String) :
    (vetoed_onderkasten l = true →
      count_onderkasten_kolomkasten (l :: lines) words =
        count_onderkasten_kolomkasten lines words) ∧
    (vetoed_onderkasten l = false →
      count_onderkasten_kolomkasten (l :: lines) words =
        lineTally words l + count_onderkasten_kolomkasten lines words) := by
  constructor <;> intro hv <;>
    simp [count_onderkasten_kolomkasten, rawTally, List.filter_cons, hv]

/-- Witness for C5: the line `"Onderkast naast wand-hoekkast"` contains the
target phrase `"Onderkast"` yet contributes zero (exclusion veto), while
`"ONDERKAST 600"` contributes its one case-insensitive phrase match. -/
theorem onderkasten_veto_witness :
    count_onderkasten_kolomkasten ["Onderkast naast wand-hoekkast"]
        target_words_onderkasten_kolomkasten =
      count_onderkasten_kolomkasten [] target_words_onderkasten_kolomkasten ∧
    count_onderkasten_kolomkasten ["ONDERKAST 600"]
        target_words_onderkasten_kolomkasten =
      lineTally target_words_onderkasten_kolomkasten "ONDERKAST 600" +
        count_onderkasten_kolomkasten [] target_words_onderkasten_kolomkasten :=
  ⟨(onderkasten_veto [] target_words_onderkasten_kolomkasten
      "Onderkast naast wand-hoekkast").1 (by decide),
   (onderkasten_veto [] target_words_onderkasten_kolomkasten
      "ONDERKAST 600").2 (by decide)⟩

/-- C6: under the whole-word matcher of the `Achterwand` rule, a line whose
only occurrence of the target phrase `"Achterwandbekleding"` sits inside
the longer token `"Achterwandbekledingen"` contributes zero, while a line
with a properly delimited occurrence contributes one. -/
theorem achterwand_whole_word :
    count_Achterwand ["2 Achterwandbekledingen wit"]
      target_words_Achterwand = 0 ∧
    count_Achterwand ["Achterwandbekleding 600 mm"]
      target_words_Achterwand = 1 := by
  decide

/-- C7: the `plinten` post-processing maps a raw tally `c` to `c / 2`
rounded down, clamped up to 1 when `c` is positive; so tallies 0, 1 and 3
give 0, 1 and 1, the result is `max 1 (c / 2)` for positive `c`, and the
result is positive exactly when the raw tally is. -/
theorem plinten_policy (lines words : List String) :
    (rawTally lines words = 0 → count_plinten lines words = 0) ∧
    (rawTally lines words = 1 → count_plinten lines words = 1) ∧
    (rawTally lines words = 3 → count_plinten lines words = 1) ∧
    count_plinten lines words =
      (if rawTally lines words = 0 then 0
       else max 1 (rawTally lines words / 2)) ∧
    (0 < count_plinten lines words ↔ 0 < rawTally lines words) := by
  unfold count_plinten
  refine ⟨?_, ?_, ?_, ?_, ?_⟩
  · intro h; split_ifs <;> omega
  · intro h; split_ifs <;> omega
  · intro h; split_ifs <;> omega
  · split_ifs <;> omega
  · split_ifs <;> omega

/-- Witness for C7: raw tallies 3 and 1 on concrete documents both give
result 1. -/
theorem plinten_policy_witness :
    count_plinten ["SB15 plint", "SB7 plint", "SB20 plint"]
      target_words_plinten = 1 ∧
    count_plinten ["Plint SB15"] target_words_plinten = 1 :=
  ⟨(plinten_policy ["SB15 plint", "SB7 plint", "SB20 plint"]
      target_words_plinten).2.2.1 (by decide),
   (plinten_policy ["Plint SB15"] target_words_plinten).2.1 (by decide)⟩

/-- C8: the capped policies send any positive raw tally to a fixed
constant and zero to zero: 1 for `Dampkap`, `Oven` and `Microgolfoven`,
3 for `Spoelbak_kraan`, 5 for `Andere`. -/
theorem capped_policies (lines words : List String) :
    count_Dampkap lines words =
      (if 1 ≤ rawTally lines words then 1 else 0) ∧
    count_Oven lines words =
      (if 1 ≤ rawTally lines words then 1 else 0) ∧
    count_Microgolfoven lines words =
      (if 1 ≤ rawTally lines words then 1 else 0) ∧
    count_Spoelbak_kraan lines words =
      (if 1 ≤ rawTally lines words then 3 else 0) ∧
    count_Andere lines words =
      (if 1 ≤ rawTally lines words then 5 else 0) := by
  unfold count_Dampkap count_Oven count_Microgolfoven count_Spoelbak_kraan
    count_Andere
  refine ⟨?_, ?_, ?_, ?_, ?_⟩ <;> split_ifs <;> omega

/-- Per-line comparison of the two dishwasher rules on the configured word
list: the weighted contribution of a line is its plain contribution plus 1
exactly when the line contains `"deurfront in"` case-insensitively. -/
theorem deur_line_split (l : String) :
    deurLineTally target_words_Deur_vaatwasser l =
      lineTally target_words_Deur_vaatwasser l +
        (if containsStr (lowerStr l) "deurfront in" = true then 1 else 0) := by
  have h1 : lowerStr "Deurfront voor" = "deurfront voor" := by decide
  have h2 : lowerStr "Deurfront in" = "deurfront in" := by decide
  have h3 : lowerStr "Doorlopend deurfront" = "doorlopend deurfront" := by decide
  have w1 : deurWeight "Deurfront voor" = 1 := by decide
  have w2 : deurWeight "Deurfront in" = 2 := by decide
  have w3 : deurWeight "Doorlopend deurfront" = 1 := by decide
  cases hv : containsStr (lowerStr l) "deurfront voor" <;>
  cases hi : containsStr (lowerStr l) "deurfront in" <;>
  cases hd : containsStr (lowerStr l) "doorlopend deurfront" <;>
    simp [deurLineTally, lineTally, target_words_Deur_vaatwasser,
      List.filter_cons, h1, h2, h3, w1, w2, w3, hv, hi, hd]

/-- C9: in the `Deur_vaatwasser` rule, the contribution of a line matching
only the double-weighted phrase `"Deurfront in"` is 2, the contribution of
a line matching only an ordinary phrase is 1, and the category result is
exactly the sum of the per-line weighted contributions (no further
transform). -/
theorem deur_weighting (lines : List String) (l : String) :
    (∀ words, count_Deur_vaatwasser (l :: lines) words =
      deurLineTally words l + count_Deur_vaatwasser lines words) ∧
    (containsStr (lowerStr l) "deurfront in" = true →
     containsStr (lowerStr l) "deurfront voor" = false →
     containsStr (lowerStr l) "doorlopend deurfront" = false →
      count_Deur_vaatwasser (l :: lines) target_words_Deur_vaatwasser =
        2 + count_Deur_vaatwasser lines target_words_Deur_vaatwasser) ∧
    (containsStr (lowerStr l) "deurfront voor" = true →
     containsStr (lowerStr l) "deurfront in" = false →
     containsStr (lowerStr l) "doorlopend deurfront" = false →
      count_Deur_vaatwasser (l :: lines) target_words_Deur_vaatwasser =
        1 + count_Deur_vaatwasser lines target_words_Deur_vaatwasser) := by
  have h1 : lowerStr "Deurfront voor" = "deurfront voor" := by decide
  have h2 : lowerStr "Deurfront in" = "deurfront in" := by decide
  have h3 : lowerStr "Doorlopend deurfront" = "doorlopend deurfront" := by decide
  have w1 : deurWeight "Deurfront voor" = 1 := by decide
  have w2 : deurWeight "Deurfront in" = 2 := by decide
  have w3 : deurWeight "Doorlopend deurfront" = 1 := by decide
  refine ⟨fun words => by simp [count_Deur_vaatwasser], ?_, ?_⟩ <;>
    intro ha hb hc <;>
    simp [count_Deur_vaatwasser, deurLineTally, target_words_Deur_vaatwasser,
      List.filter_cons, h1, h2, h3, w1, w2, w3, ha, hb, hc]

/-- Witness for C9: a line matching only the double-weighted phrase adds
2, a line matching only an ordinary phrase adds 1. -/
theorem deur_weighting_witness :
    count_Deur_vaatwasser ["Deurfront in wit"] target_words_Deur_vaatwasser =
      2 + count_Deur_vaatwasser [] target_words_Deur_vaatwasser ∧
    count_Deur_vaatwasser ["Deurfront voor vaatwasser"]
        target_words_Deur_vaatwasser =
      1 + count_Deur_vaatwasser [] target_words_Deur_vaatwasser :=
  ⟨(deur_weighting [] "Deurfront in wit").2.1
      (by decide) (by decide) (by decide),
   (deur_weighting [] "Deurfront voor vaatwasser").2.2
      (by decide) (by decide) (by decide)⟩

/-- C10: on every line list, the `Deur_vaatwasser` count exceeds the
`Vaatwasser` count by exactly the number of lines containing
`"deurfront in"` case-insensitively (both rules share the same phrases and
matching, differing only in the double weight), so it is never smaller,
and the two counts agree exactly when no line contains `"deurfront in"`. -/
theorem deur_vs_vaatwasser (lines : List String) :
    count_Deur_vaatwasser lines target_words_Deur_vaatwasser =
      count_Vaatwasser lines target_words_Vaatwasser +
        (lines.filter
          (fun l => containsStr (lowerStr l) "deurfront in")).length ∧
    count_Vaatwasser lines target_words_Vaatwasser ≤
      count_Deur_vaatwasser lines target_words_Deur_vaatwasser ∧
    (count_Deur_vaatwasser lines target_words_Deur_vaatwasser =
        count_Vaatwasser lines target_words_Vaatwasser ↔
      ∀ l ∈ lines, containsStr (lowerStr l) "deurfront in" = false) := by
  have hlists : target_words_Vaatwasser = target_words_Deur_vaatwasser := rfl
  have main : count_Deur_vaatwasser lines target_words_Deur_vaatwasser =
      count_Vaatwasser lines target_words_Vaatwasser +
        (lines.filter
          (fun l => containsStr (lowerStr l) "deurfront in")).length := by
    induction lines with
    | nil => rfl
    | cons a t ih =>
      have hs := deur_line_split a
      simp only [count_Deur_vaatwasser, count_Vaatwasser, rawTally,
        List.map_cons, List.sum_cons, List.filter_cons, hlists] at ih ⊢
      rw [hs, ih]
      cases hp : containsStr (lowerStr a) "deurfront in" <;> simp [hp] <;> omega
  refine ⟨main, by omega, ?_⟩
  constructor
  · intro heq
    have hlen : (lines.filter
        (fun l => containsStr (lowerStr l) "deurfront in")).length = 0 := by
      omega
    have hnil := List.length_eq_zero.mp hlen
    intro l hl
    have := List.filter_eq_nil_iff.mp hnil l hl
    simpa using this
  · intro hall
    have hnil : lines.filter
        (fun l => containsStr (lowerStr l) "deurfront in") = [] :=
      List.filter_eq_nil_iff.mpr (fun a ha => by simp [hall a ha])
    rw [main, hnil]
    simp

end IXI
